import Mathlib

/-!
Shallow embedding of the snapd seed writer (Go package `seedwriter`):
its data model, the step-protocol state machine, the four resolution
rounds, channel resolution and the validation checks performed when a
batch of snaps has been downloaded.

Collaborator packages that are only declared or called here (the
`snap/channel` parser and resolvers, the `naming` helpers, the path
helpers) are modelled from the specification and marked as such in
their doc comments.  The `Writer` itself is translated from the source.
-/

set_option linter.unusedVariables false

namespace Seedwriter

/-! ## Channel model -/

/-- Modelled from the spec: a channel coordinate is a track (a major line),
a risk (a stability level within it) and an optional branch; channel syntax
parsing is delegated to a pure channel-parsing collaborator (`snap/channel`,
not under src/). -/
structure Chan where
  track : String := ""
  risk : String := ""
  branch : String := ""
deriving Repr, DecidableEq

def riskNames : List String := ["stable", "candidate", "beta", "edge"]

def isRisk (s : String) : Bool := riskNames.contains s

/-- splitCharsAux splits a character list at a separator, keeping empty
components, like Go strings.Split for a one-character separator. -/
def splitCharsAux (sep : Char) : List Char → List Char → List (List Char)
  | [], acc => [acc.reverse]
  | c :: cs, acc =>
    if c = sep then acc.reverse :: splitCharsAux sep cs []
    else splitCharsAux sep cs (c :: acc)

def splitChars (sep : Char) (s : String) : List String :=
  (splitCharsAux sep s.toList []).map List.asString

def joinWith (sep : String) : List String → String
  | [] => ""
  | [x] => x
  | x :: xs => x ++ sep ++ joinWith sep xs

/-- Modelled from the spec: verbatim parsing of a channel string of the form
`track`, `risk`, `track/risk`, `risk/branch` or `track/risk/branch`
(`channel.ParseVerbatim` is not under src/). -/
def parseVerbatim (s : String) : Option Chan :=
  match splitChars '/' s with
  | [a] =>
    if a = "" then none
    else if isRisk a then some { risk := a } else some { track := a }
  | [a, b] =>
    if a = "" ∨ b = "" then none
    else if isRisk a then some { risk := a, branch := b }
    else if isRisk b then some { track := a, risk := b }
    else none
  | [a, b, c] =>
    if a = "" ∨ b = "" ∨ c = "" then none
    else if isRisk b then some { track := a, risk := b, branch := c }
    else none
  | _ => none

def Chan.render (c : Chan) : String :=
  let base :=
    if c.track = "" then c.risk
    else if c.risk = "" then c.track
    else c.track ++ "/" ++ c.risk
  if c.branch = "" then base else base ++ "/" ++ c.branch

/-- Modelled from the spec: resolving a default channel together with an
override channel; the override replaces or narrows track/risk/branch relative
to the default (`channel.Resolve` is not under src/). -/
def resolveChan (defl over : String) : Option String :=
  if over = "" then some defl
  else if defl = "" then some over
  else do
    let p1 ← parseVerbatim defl
    let p2 ← parseVerbatim over
    some (Chan.render
      { track := if p2.track = "" then p1.track else p2.track
        risk := if p2.risk = "" then p1.risk else p2.risk
        branch := p2.branch })

inductive PinnedErr
  | trackSwitch
  | invalid
deriving Repr, DecidableEq

/-- Modelled from the spec: resolving against a model-pinned track combines
the pinned track with whatever risk/branch the supplied channel gives
(defaulting to the track itself when none is given), and fails with a
track-switch error when the supplied channel names a track incompatible with
the pinned one (`channel.ResolvePinned` is not under src/). -/
def resolvePinned (track s : String) : Except PinnedErr String :=
  if s = "" then .ok track
  else
    match parseVerbatim s with
    | none => .error .invalid
    | some ch =>
      if ch.track ≠ "" ∧ ch.track ≠ track then .error .trackSwitch
      else .ok (Chan.render { track := track, risk := ch.risk, branch := ch.branch })

/-! ## Naming helpers -/

def hasDoubleDash : List Char → Bool
  | c1 :: c2 :: rest => (c1 = '-' && c2 = '-') || hasDoubleDash (c2 :: rest)
  | _ => false

/-- Modelled from the spec: snap name validation (`naming.ValidateSnap` is not
under src/): nonempty, at most 40 characters, lowercase letters, digits and
inner single hyphens, with at least one letter. -/
def validSnapName (s : String) : Bool :=
  let cs := s.toList
  decide (0 < cs.length) && decide (cs.length ≤ 40) &&
  cs.all (fun c => ('a' ≤ c && c ≤ 'z') || ('0' ≤ c && c ≤ '9') || c = '-') &&
  cs.head? != some '-' && cs.getLast? != some '-' &&
  !hasDoubleDash cs &&
  cs.any (fun c => 'a' ≤ c && c ≤ 'z')

/-- Modelled from the spec: the instance key of a snap instance name, the part
after the first underscore (`snap.SplitInstanceName` is not under src/). -/
def instanceKey (s : String) : String :=
  match splitChars '_' s with
  | [] => ""
  | [_] => ""
  | _ :: rest => joinWith "_" rest

/-- Modelled from the spec: the base name of a slash-separated path
(`filepath.Base`, not under src/). -/
def basename (s : String) : String := ((splitChars '/' s).getLast?).getD s

/-- Modelled from the spec: joining two path components
(`filepath.Join`, not under src/). -/
def joinPath (a b : String) : String := a ++ "/" ++ b

/-! ## Data model

The spec describes `naming.SnapSet` as a name-uniqueness index over package
references; accordingly snap identity is modelled by the snap name, and the
writer's three sets are association lists keyed by name.  The source keys
`localSnaps` and the option association of a `SeedSnap` by the address of the
`OptionsSnap` record; following the spec this is replaced by the option
entry's index in the registered options list. -/

/-- OptionsSnap represents an options-referred snap with its option values
(translated from the source). -/
structure OptionsSnap where
  name : String := ""
  snapID : String := ""
  path : String := ""
  channel : String := ""
deriving Repr, DecidableEq

/-- ModelSnap is the per-snap entry of the model assertion that the writer
reads: name, id, type, pinned track and default channel. -/
structure ModelSnap where
  name : String := ""
  snapID : String := ""
  snapType : String := ""
  pinnedTrack : String := ""
  defaultChannel : String := ""
deriving Repr, DecidableEq

/-- SnapDecl is the view of a snap-declaration assertion the writer uses:
its publisher id. -/
structure SnapDecl where
  publisherID : String := ""
deriving Repr, DecidableEq

/-- ARef is an assertion reference; the writer only inspects whether it is a
snap-declaration reference and resolves it through the database. -/
structure ARef where
  isSnapDeclaration : Bool := false
  key : String := ""
deriving Repr, DecidableEq

inductive SnapType
  | app
  | kernel
  | gadget
  | base
  | core
  | snapd
deriving Repr, DecidableEq

def snapTypeName : SnapType → String
  | .app => "app"
  | .kernel => "kernel"
  | .gadget => "gadget"
  | .base => "base"
  | .core => "core"
  | .snapd => "snapd"

/-- Info is the view of `snap.Info` the writer uses.  A revision of 0 models
an unset revision; `mountFile` models `info.MountFile()`. -/
structure Info where
  name : String := ""
  snapID : String := ""
  revision : Int := 0
  mountFile : String := ""
  snapType : SnapType := .app
  needsClassic : Bool := false
  defaultProviders : List String := []
deriving Repr, DecidableEq

/-- SeedSnap holds details of a snap being added to a seed (translated from
the source).  `ref` is the embedded `naming.SnapRef` as a (name, id) pair;
`optionSnap` carries the originating option entry by value, the channel of
which is kept in sync with the registered options list at the single place
the source mutates it (`InfoDerived`). -/
structure SeedSnap where
  ref : Option (String × String) := none
  channel : String := ""
  path : String := ""
  info : Option Info := none
  aRefs : Option (List ARef) := none
  isLocal : Bool := false
  modelSnap : Option ModelSnap := none
  optionSnap : Option OptionsSnap := none
deriving Repr, DecidableEq

def SeedSnap.snapName (sn : SeedSnap) : String := (sn.ref.map Prod.fst).getD ""

/-- Model is the verified model assertion as the writer reads it. -/
structure Model where
  brandID : String := ""
  classic : Bool := false
  snaps : List ModelSnap := []
deriving Repr, DecidableEq

/-- Policy is the strategy interface of the writer, translated from the
source interface; the two concrete Core 16/18 policies are not under src/. -/
structure Policy where
  checkDefaultChannel : Chan → Option String
  checkSnapChannel : Chan → String → Option String
  systemSnap : Option ModelSnap
  modelSnapDefaultChannel : String
  extraSnapDefaultChannel : String
  checkBase : Info → List String → Option String
  needsImplicitSnaps : List String → Except String Bool
  implicitSnaps : List String → List ModelSnap
  implicitExtraSnaps : List String → List OptionsSnap

/-! ## Step protocol -/

def setOptionsSnapsStep : Nat := 0
def startStep : Nat := 1
def localSnapsStep : Nat := 2
def infoDerivedStep : Nat := 3
def snapsToDownloadStep : Nat := 4
def downloadedStep : Nat := 5
def seedSnapsStep : Nat := 6
def writeMetaStep : Nat := 7

def stepName (s : Nat) : String :=
  if s = 0 then "SetOptionsSnaps"
  else if s = 1 then "Start"
  else if s = 2 then "LocalSnaps"
  else if s = 3 then "InfoDerived"
  else if s = 4 then "SnapsToDownload"
  else if s = 5 then "Downloaded"
  else if s = 6 then "SeedSnaps"
  else if s = 7 then "WriteMeta"
  else "unknown"

def protocolViolation (expected thisName : String) : String :=
  "internal error: seedwriter.Writer expected " ++ expected ++
    " to be invoked on it at this point, not " ++ thisName

def expectedDesc (exp : Nat) (localEmpty : Bool) : String :=
  if exp = setOptionsSnapsStep then "Start|SetOptionsSnaps"
  else if exp = localSnapsStep ∧ localEmpty = true then "SnapsToDownload|LocalSnaps"
  else stepName exp

/-- checkStep, translated from the source: equality advances; the two
exceptions are Start while SetOptionsSnaps is expected, and SnapsToDownload
while LocalSnaps or InfoDerived is expected provided no local snaps were
registered; anything else is a protocol-violation error. -/
def checkStepCore (exp : Nat) (localEmpty : Bool) (this : Nat) : Except String Nat :=
  if this = exp then .ok (this + 1)
  else if (this = startStep ∧ exp = setOptionsSnapsStep) ∨
      (this = snapsToDownloadStep ∧ (exp = localSnapsStep ∨ exp = infoDerivedStep) ∧
        localEmpty = true) then
    .ok (this + 1)
  else .error (protocolViolation (expectedDesc exp localEmpty) (stepName this))

inductive ToDownloadSet
  | model
  | implicit
  | extra
  | extraImplicit
deriving Repr, DecidableEq

def ToDownloadSet.idx : ToDownloadSet → Nat
  | .model => 0
  | .implicit => 1
  | .extra => 2
  | .extraImplicit => 3

/-! ## The Writer -/

/-- Writer writes Core 16/18 seeds (translated from the source).  The tree
and database collaborators appear as the functions the writer calls on them:
`snapsDirPath` is `tree.snapsDir()`, `localSnapPathOf` is
`tree.localSnapPath`, `fileExists` is `osutil.FileExists` and `db` resolves a
saved assertion reference to a snap declaration. -/
structure Writer where
  model : Model
  defaultChannel : String := ""
  policy : Policy
  snapsDirPath : String := ""
  localSnapPathOf : SeedSnap → String := fun _ => ""
  fileExists : String → Bool := fun _ => true
  db : String → Option SnapDecl := fun _ => none
  expectedStep : Nat := setOptionsSnapsStep
  optionsSnaps : List OptionsSnap := []
  consumedOptSnapNum : Nat := 0
  extraSnapsGuessNum : Int := 0
  localSnaps : List (Nat × SeedSnap) := []
  byNameOptSnaps : List (String × Nat) := []
  byRefLocalSnaps : List (String × Nat) := []
  availableSnaps : List String := []
  toDownload : ToDownloadSet := .model
  toDownloadConsideredNum : Nat := 0
  snapsFromModel : List SeedSnap := []
  extraSnaps : List SeedSnap := []

def lookupByName (l : List (String × Nat)) (n : String) : Option Nat :=
  (l.find? (fun p => p.1 = n)).map Prod.snd

def lookupLocal (l : List (Nat × SeedSnap)) (i : Nat) : Option SeedSnap :=
  (l.find? (fun p => p.1 = i)).map Prod.snd

def updateLocal (l : List (Nat × SeedSnap)) (i : Nat) (sn : SeedSnap) :
    List (Nat × SeedSnap) :=
  l.map (fun p => if p.1 = i then (i, sn) else p)

def Writer.checkStep (w : Writer) (this : Nat) : Except String Writer :=
  match checkStepCore w.expectedStep w.localSnaps.isEmpty this with
  | .ok e => .ok { w with expectedStep := e }
  | .error msg => .error msg

/-! ## New and SetOptionsSnaps -/

/-- New returns a Writer for the given model and options (translated from the
source; the concrete Core 16 policy and tree are collaborators passed in). -/
def New (model : Model) (pol : Policy) (defaultChannel : String)
    (snapsDirPath : String) (localSnapPathOf : SeedSnap → String)
    (fileExists : String → Bool) (db : String → Option SnapDecl) :
    Except String Writer :=
  let w : Writer :=
    { model := model, defaultChannel := defaultChannel, policy := pol,
      snapsDirPath := snapsDirPath, localSnapPathOf := localSnapPathOf,
      fileExists := fileExists, db := db,
      expectedStep := setOptionsSnapsStep }
  if defaultChannel ≠ "" then
    match parseVerbatim defaultChannel with
    | none => .error "cannot use global default option channel"
    | some ch =>
      match pol.checkDefaultChannel ch with
      | some e => .error e
      | none => .ok w
  else .ok w

def strEndsWith (s suffix : String) : Bool := suffix.toList.isSuffixOf s.toList

def optWhich (sn : OptionsSnap) : String := if sn.name ≠ "" then sn.name else sn.path

/-- setOptionsOne is the validation of one option entry of SetOptionsSnaps
(translated from the source): name and path are mutually exclusive, names
must be plain valid snap names not repeated among the name-form entries,
paths must end in .snap and exist, and a non-empty channel must parse and
satisfy the policy.  On success it returns the updated by-name option set. -/
def setOptionsOne (pol : Policy) (fileExists : String → Bool)
    (byName : List (String × Nat)) (i : Nat) (sn : OptionsSnap) :
    Except String (List (String × Nat)) :=
  let afterNamePath : Except String (List (String × Nat)) :=
    if sn.name ≠ "" then
      if sn.path ≠ "" then
        .error ("cannot specify both name and path for option snap \"" ++ sn.name ++ "\"")
      else if instanceKey sn.name ≠ "" then
        .error ("cannot use snap \"" ++ sn.name ++ "\", parallel snap instances are unsupported")
      else if ¬ validSnapName sn.name then
        .error ("invalid snap name: \"" ++ sn.name ++ "\"")
      else if byName.any (fun p => p.1 = sn.name) then
        .error ("snap \"" ++ sn.name ++ "\" is repeated in options")
      else .ok (byName ++ [(sn.name, i)])
    else
      if ¬ strEndsWith sn.path ".snap" then
        .error ("local option snap \"" ++ sn.path ++ "\" does not end in .snap")
      else if ¬ fileExists sn.path then
        .error ("local option snap \"" ++ sn.path ++ "\" does not exist")
      else .ok byName
  match afterNamePath with
  | .error e => .error e
  | .ok byName =>
    if sn.channel ≠ "" then
      match parseVerbatim sn.channel with
      | none => .error ("cannot use option channel for snap \"" ++ optWhich sn ++ "\"")
      | some ch =>
        match pol.checkSnapChannel ch (optWhich sn) with
        | some e => .error e
        | none => .ok byName
    else .ok byName

/-- setOptionsLoop is the per-entry validation loop of SetOptionsSnaps,
threading the by-name option set and the registered local-snap entries
(translated from the source). -/
def setOptionsLoop (pol : Policy) (fileExists : String → Bool) :
    List (Nat × OptionsSnap) → List (String × Nat) → List (Nat × SeedSnap) →
    Except String (List (String × Nat) × List (Nat × SeedSnap))
  | [], byName, locals => .ok (byName, locals)
  | (i, sn) :: rest, byName, locals =>
    match setOptionsOne pol fileExists byName i sn with
    | .error e => .error e
    | .ok byName =>
      let locals :=
        if sn.name = "" then
          locals ++ [(i, { ref := none, path := sn.path, isLocal := true,
                           optionSnap := some sn })]
        else locals
      setOptionsLoop pol fileExists rest byName locals

/-- SetOptionsSnaps accepts options-referred snaps (translated from the
source). -/
def Writer.SetOptionsSnaps (w : Writer) (optSnaps : List OptionsSnap) :
    Except String Writer := do
  let w ← w.checkStep setOptionsSnapsStep
  let (byName, locals) ←
    setOptionsLoop w.policy w.fileExists optSnaps.enum w.byNameOptSnaps w.localSnaps
  .ok { w with byNameOptSnaps := byName, localSnaps := locals, optionsSnaps := optSnaps }

/-- Start starts the seed writing.  Modelled from the spec: the collaborator
work of the source (fetching the model assertion chain and the device store
assertion, creating the tree's fixed directories) is external I/O treated as
succeeding; what remains is the step-protocol transition. -/
def Writer.Start (w : Writer) : Except String Writer :=
  w.checkStep startStep

/-! ## LocalSnaps, InfoDerived and SetInfo -/

/-- LocalSnaps returns the seed snaps that are local, in registered option
order (translated from the source). -/
def Writer.LocalSnaps (w : Writer) : Except String (List SeedSnap × Writer) := do
  let w ← w.checkStep localSnapsStep
  let lsnaps := (List.range w.optionsSnaps.length).filterMap (lookupLocal w.localSnaps)
  .ok (lsnaps, w)

/-- infoDerivedStepOne processes one local snap of InfoDerived: requires its
Info to be set, takes its reference from the Info, assigns a local revision,
rejects repeated local snaps and merges a channel given by name separately
(translated from the source; the source mutation of the shared OptionsSnap
record is mirrored into both the options list and the stored SeedSnap). -/
def infoDerivedStepOne (w : Writer) (i : Nat) (sn : SeedSnap) : Except String Writer :=
  match sn.info with
  | none =>
    .error ("internal error: before seedwriter.Writer.InfoDerived snap \"" ++
      sn.path ++ "\" Info should have been set")
  | some info0 =>
    let info := if info0.revision = 0 then { info0 with revision := -1 } else info0
    let sn : SeedSnap := { sn with ref := some (info.name, info.snapID), info := some info }
    if w.byRefLocalSnaps.any (fun p => p.1 = sn.snapName) then
      .error ("local snap \"" ++ sn.snapName ++ "\" is repeated in options")
    else
      match lookupByName w.byNameOptSnaps sn.snapName with
      | none =>
        .ok { w with localSnaps := updateLocal w.localSnaps i sn,
                     byRefLocalSnaps := w.byRefLocalSnaps ++ [(sn.snapName, i)] }
      | some j =>
        let named := (w.optionsSnaps[j]?).getD {}
        let own := (sn.optionSnap.map OptionsSnap.channel).getD ""
        if named.channel ≠ "" ∧ own ≠ "" ∧ own ≠ named.channel then
          .error ("option snap has different channels specified: \"" ++ sn.path ++
            "\"=\"" ++ own ++ "\" vs \"" ++ named.name ++ "\"=\"" ++ named.channel ++ "\"")
        else
          let merge := named.channel ≠ "" ∧ own = ""
          let sn :=
            if merge then
              { sn with optionSnap :=
                  (sn.optionSnap.map (fun o => { o with channel := named.channel })) }
            else sn
          let optionsSnaps :=
            if merge then
              w.optionsSnaps.mapIdx (fun k o => if k = i then { o with channel := named.channel } else o)
            else w.optionsSnaps
          .ok { w with consumedOptSnapNum := w.consumedOptSnapNum + 1,
                       optionsSnaps := optionsSnaps,
                       localSnaps := updateLocal w.localSnaps i sn,
                       byRefLocalSnaps := w.byRefLocalSnaps ++ [(sn.snapName, i)] }

def infoDerivedLoop : Writer → List Nat → Except String Writer
  | w, [] => .ok w
  | w, i :: rest =>
    match lookupLocal w.localSnaps i with
    | none => infoDerivedLoop w rest
    | some sn => do
      let w ← infoDerivedStepOne w i sn
      infoDerivedLoop w rest

/-- InfoDerived checks the local snaps metadata, processing the local snaps
in registered option order (translated from the source). -/
def Writer.InfoDerived (w : Writer) : Except String Writer := do
  let w ← w.checkStep infoDerivedStep
  infoDerivedLoop w (List.range w.optionsSnaps.length)

/-- SetInfo sets Info of the SeedSnap and possibly computes its destination
Path (translated from the source; the unchanged Writer is returned alongside
to express that the method leaves the writer untouched). -/
def Writer.SetInfo (w : Writer) (sn : SeedSnap) (info : Info) : SeedSnap × Writer :=
  let sn : SeedSnap := { sn with info := some info }
  if sn.isLocal then (sn, w)
  else ({ sn with path := joinPath w.snapsDirPath (basename info.mountFile) }, w)

/-- setLocalSnapInfo models the caller filling Info of the local SeedSnap for
option entry `i` (in the source the caller mutates the record returned by
LocalSnaps, which the writer shares). -/
def Writer.setLocalSnapInfo (w : Writer) (i : Nat) (info : Info) : Writer :=
  { w with localSnaps :=
      (w.localSnaps.map (fun p => if p.1 = i then (p.1, (w.SetInfo p.2 info).1) else p)) }

/-- setFromModelSnapInfo models the caller filling Info and assertion
references of the `i`-th from-model SeedSnap returned by SnapsToDownload. -/
def Writer.setFromModelSnapInfo (w : Writer) (i : Nat) (info : Info)
    (aRefs : Option (List ARef)) : Writer :=
  { w with snapsFromModel :=
      (w.snapsFromModel.mapIdx
        (fun k sn => if k = i then { (w.SetInfo sn info).1 with aRefs := aRefs } else sn)) }

/-- setExtraSnapInfo models the caller filling Info and assertion references
of the `i`-th extra SeedSnap. -/
def Writer.setExtraSnapInfo (w : Writer) (i : Nat) (info : Info)
    (aRefs : Option (List ARef)) : Writer :=
  { w with extraSnaps :=
      (w.extraSnaps.mapIdx
        (fun k sn => if k = i then { (w.SetInfo sn info).1 with aRefs := aRefs } else sn)) }

/-! ## Channel resolution and the four to-download computations -/

/-- effectiveOptChannel is the option channel resolveChannel works with: the
option entry's channel, or the writer's global default channel when the entry
supplies none. -/
def Writer.effectiveOptChannel (w : Writer) (optSnap : Option OptionsSnap) : String :=
  let optChannel0 := (optSnap.map OptionsSnap.channel).getD ""
  if optChannel0 = "" then w.defaultChannel else optChannel0

/-- pinnedTrackError is the pinned-track-mismatch message, naming the option
channel and the pinned track. -/
def pinnedTrackError (optChannel : String) (ms : ModelSnap) : String :=
  "option channel \"" ++ optChannel ++ "\" for \"" ++ ms.name ++
    "\" has a track incompatible with the pinned track from model assertion: " ++
    ms.pinnedTrack

/-- resolveChannel, translated from the source: the option channel (or the
global default) is resolved against the pinned track when the model entry pins
one, and otherwise against the model default channel (or the policy default
for model or extra snaps). -/
def Writer.resolveChannel (w : Writer) (whichSnap : String)
    (modSnap : Option ModelSnap) (optSnap : Option OptionsSnap) :
    Except String String :=
  let optChannel := w.effectiveOptChannel optSnap
  match modSnap with
  | some ms =>
    if ms.pinnedTrack ≠ "" then
      match resolvePinned ms.pinnedTrack optChannel with
      | .error .trackSwitch => .error (pinnedTrackError optChannel ms)
      | .error .invalid =>
        .error ("internal error: cannot resolve pinned track \"" ++ ms.pinnedTrack ++
          "\" and option channel \"" ++ optChannel ++ "\" for snap \"" ++ whichSnap ++ "\"")
      | .ok res => .ok res
    else
      let defl := if ms.defaultChannel = "" then w.policy.modelSnapDefaultChannel
        else ms.defaultChannel
      match resolveChan defl optChannel with
      | none =>
        .error ("internal error: cannot resolve model default channel \"" ++ defl ++
          "\" and option channel \"" ++ optChannel ++ "\" for snap \"" ++ whichSnap ++ "\"")
      | some res => .ok res
  | none =>
    let defl := w.policy.extraSnapDefaultChannel
    match resolveChan defl optChannel with
    | none =>
      .error ("internal error: cannot resolve model default channel \"" ++ defl ++
        "\" and option channel \"" ++ optChannel ++ "\" for snap \"" ++ whichSnap ++ "\"")
    | some res => .ok res

/-- lookupLocalByRef is `byRefLocalSnaps.Lookup`: finds the registered local
SeedSnap matching a reference by name. -/
def Writer.lookupLocalByRef (w : Writer) (name : String) : Option (Nat × SeedSnap) :=
  match lookupByName w.byRefLocalSnaps name with
  | none => none
  | some i => (lookupLocal w.localSnaps i).map (fun sn => (i, sn))

/-- modelOptSnapFor is the option entry modelSnapToSeed associates with a
model snap: the local snap's option entry when the model snap is local, else
the by-name option entry. -/
def Writer.modelOptSnapFor (w : Writer) (modSnap : ModelSnap) : Option OptionsSnap :=
  match w.lookupLocalByRef modSnap.name with
  | some (_, sn) => sn.optionSnap
  | none => (lookupByName w.byNameOptSnaps modSnap.name).bind (fun j => w.optionsSnaps[j]?)

/-- modelSnapToSeed, translated from the source. -/
def Writer.modelSnapToSeed (w : Writer) (modSnap : ModelSnap) : Except String SeedSnap := do
  let optSnap := w.modelOptSnapFor modSnap
  let sn : SeedSnap :=
    match w.lookupLocalByRef modSnap.name with
    | some (_, s) => s
    | none => { ref := some (modSnap.name, modSnap.snapID), isLocal := false,
                optionSnap := optSnap }
  let ch ← w.resolveChannel modSnap.name (some modSnap) optSnap
  .ok { sn with modelSnap := some modSnap, channel := ch }

/-- modelLoop converts a list of model snaps to seed snaps, collecting the
non-local ones to download and counting consumed option entries. -/
def modelLoop (w : Writer) : List ModelSnap →
    Except String (List SeedSnap × List SeedSnap × Nat)
  | [] => .ok ([], [], 0)
  | m :: rest => do
    let sn ← w.modelSnapToSeed m
    let (dl, seeds, c) ← modelLoop w rest
    .ok ((if sn.isLocal then dl else sn :: dl), sn :: seeds,
      if sn.optionSnap.isSome then c + 1 else c)

/-- modelSnapsToDownload, translated from the source: appends the seed snaps
to the from-model list, updates the consumed-option count, the number of
snaps considered this round and the extra-snaps guess. -/
def Writer.modelSnapsToDownload (w : Writer) (modSnaps : List ModelSnap) :
    Except String (List SeedSnap × Writer) := do
  let (dl, seeds, consumedInc) ← modelLoop w modSnaps
  let consumed := w.consumedOptSnapNum + consumedInc
  .ok (dl, { w with
    snapsFromModel := w.snapsFromModel ++ seeds,
    consumedOptSnapNum := consumed,
    toDownloadConsideredNum := seeds.length,
    extraSnapsGuessNum := (w.optionsSnaps.length : Int) - (consumed : Int) })

/-- modSnaps, translated from the source: the model's snaps, with the
policy's system snap prepended when no model entry has the same identity. -/
def Writer.modSnaps (w : Writer) : List ModelSnap :=
  match w.policy.systemSnap with
  | none => w.model.snaps
  | some s =>
    if w.model.snaps.any (fun m => m.name = s.name) then w.model.snaps
    else s :: w.model.snaps

/-- optExtraSnaps, translated from the source: the registered option entries
whose reference (the local seed snap for path-form entries) is not yet in the
available set, paired with their registration index. -/
def Writer.optExtraSnaps (w : Writer) : List (Option Nat × OptionsSnap) :=
  (w.optionsSnaps.enum.filter (fun p =>
    let refName :=
      match lookupLocal w.localSnaps p.1 with
      | some sn => sn.snapName
      | none => p.2.name
    ¬ w.availableSnaps.contains refName)).map (fun p => (some p.1, p.2))

/-- extraSnapToSeed, translated from the source; `idx` is the registration
index of the option entry when it is a registered one (policy-supplied
implicit extra entries have none). -/
def Writer.extraSnapToSeed (w : Writer) (idx : Option Nat) (optSnap : OptionsSnap) :
    Except String SeedSnap := do
  let sn : SeedSnap :=
    match idx.bind (lookupLocal w.localSnaps) with
    | some s => s
    | none => { ref := some (optSnap.name, optSnap.snapID), isLocal := false,
                optionSnap := some optSnap }
  if sn.snapName = "" then
    .error "internal error: option extra snap has no associated name"
  else do
    let ch ← w.resolveChannel sn.snapName none (some optSnap)
    .ok { sn with channel := ch }

def extraLoop (w : Writer) : List (Option Nat × OptionsSnap) →
    Except String (List SeedSnap × List SeedSnap)
  | [] => .ok ([], [])
  | (idx, o) :: rest => do
    let sn ← w.extraSnapToSeed idx o
    let (dl, seeds) ← extraLoop w rest
    .ok ((if sn.isLocal then dl else sn :: dl), sn :: seeds)

/-- extraSnapsToDownload, translated from the source. -/
def Writer.extraSnapsToDownload (w : Writer) (extraSnaps : List (Option Nat × OptionsSnap)) :
    Except String (List SeedSnap × Writer) := do
  let (dl, seeds) ← extraLoop w extraSnaps
  .ok (dl, { w with
    extraSnaps := w.extraSnaps ++ seeds,
    toDownloadConsideredNum := seeds.length })

/-- SnapsToDownload returns a list of seed snaps to download (translated from
the source). -/
def Writer.SnapsToDownload (w : Writer) : Except String (List SeedSnap × Writer) := do
  let w ← w.checkStep snapsToDownloadStep
  match w.toDownload with
  | .model => w.modelSnapsToDownload w.modSnaps
  | .implicit => w.modelSnapsToDownload (w.policy.implicitSnaps w.availableSnaps)
  | .extra => w.extraSnapsToDownload w.optExtraSnaps
  | .extraImplicit =>
    w.extraSnapsToDownload ((w.policy.implicitExtraSnaps w.availableSnaps).map
      (fun o => (none, o)))

/-! ## Downloaded and its checks -/

/-- Modelled from the spec: the type compatibility check against the model
entry (`checkType` is not under src/); a snap matched to a model entry that
declares a type must have that type. -/
def checkType (sn : SeedSnap) (info : Info) : Option String :=
  match sn.modelSnap with
  | none => none
  | some ms =>
    if ms.snapType ≠ "" ∧ snapTypeName info.snapType ≠ ms.snapType then
      some ("internal error: snap \"" ++ info.name ++ "\" has an unexpected type for the model entry")
    else none

/-- snapDecl, translated from the source: resolve the snap-declaration among
the snap's assertion references through the database. -/
def Writer.snapDecl (w : Writer) (sn : SeedSnap) : Except String SnapDecl :=
  match (sn.aRefs.getD []).find? ARef.isSnapDeclaration with
  | none =>
    .error ("internal error: snap \"" ++ sn.snapName ++ "\" has no snap-declaration set")
  | some ref =>
    match w.db ref.key with
    | none => .error "internal error: lost saved assertion"
    | some decl => .ok decl

def publisherMismatch (kind snapName publisher brandID : String) : String :=
  "cannot use " ++ kind ++ " \"" ++ snapName ++ "\" published by \"" ++ publisher ++
    "\" for model by \"" ++ brandID ++ "\""

/-- checkPublisher, translated from the source: local snaps supplied without
assertions are skipped; only kernel and gadget snaps are checked; the
resolved snap-declaration's publisher must be the model's brand or
\"canonical\". -/
def Writer.checkPublisher (w : Writer) (sn : SeedSnap) (info : Info) : Option String :=
  if sn.isLocal ∧ sn.aRefs = none then none
  else
    let kind : Option String :=
      match info.snapType with
      | .kernel => some "kernel"
      | .gadget => some "gadget"
      | _ => none
    match kind with
    | none => none
    | some kind =>
      match w.snapDecl sn with
      | .error e => some e
      | .ok decl =>
        if decl.publisherID ≠ w.model.brandID ∧ decl.publisherID ≠ "canonical" then
          some (publisherMismatch kind info.name decl.publisherID w.model.brandID)
        else none

/-- checkDownloadedSnap is the per-snap body of the second loop of
`downloaded` (translated from the source; the sequential early returns of the
source become a left-biased chain, so the first failing check supplies the
error): snap-id and assertion references present, type compatibility, classic
confinement, base and default content providers available, publisher trust. -/
def Writer.checkDownloadedSnap (w : Writer) (avail : List String) (sn : SeedSnap) :
    Option String :=
  match sn.info with
  | none => none
  | some info =>
    (if ¬ sn.isLocal ∧ info.snapID = "" then
      some ("internal error: before seedwriter.Writer.Downloaded snap \"" ++ sn.snapName ++
        "\" snap-id should have been set")
     else none).or
    ((if info.snapID ≠ "" ∧ sn.aRefs = none then
      some ("internal error: before seedwriter.Writer.Downloaded snap \"" ++ sn.snapName ++
        "\" ARefs should have been set")
      else none).or
    ((checkType sn info).or
    ((if info.needsClassic ∧ ¬ w.model.classic then
      some ("cannot use classic snap \"" ++ info.name ++ "\" in a core system")
      else none).or
    ((w.policy.checkBase info avail).or
    (((info.defaultProviders.find? (fun dp => ¬ avail.contains dp)).map (fun dp =>
      "cannot use snap \"" ++ info.name ++ "\" without its default content provider \"" ++
        dp ++ "\" being added explicitly")).or
    (w.checkPublisher sn info))))))

/-- downloadedErr is the validation of a downloaded batch (translated from
the source `downloaded` method): every snap must have Info set, the batch is
added to the available set, and each snap then passes the per-snap checks. -/
def Writer.downloadedErr (w : Writer) (seedSnaps : List SeedSnap) : Option String :=
  match seedSnaps.find? (fun sn => sn.info.isNone) with
  | some sn =>
    some ("internal error: before seedwriter.Writer.Downloaded snap \"" ++ sn.snapName ++
      "\" Info should have been set")
  | none =>
    let avail := w.availableSnaps ++ seedSnaps.map SeedSnap.snapName
    seedSnaps.findSome? (w.checkDownloadedSnap avail)

def Writer.downloaded (w : Writer) (seedSnaps : List SeedSnap) : Except String Writer :=
  match w.downloadedErr seedSnaps with
  | some e => .error e
  | none => .ok { w with availableSnaps := w.availableSnaps ++ seedSnaps.map SeedSnap.snapName }

/-- consideredSnaps is the batch Downloaded checks: the last
`toDownloadConsideredNum` entries of the list the current round extends. -/
def Writer.consideredSnaps (w : Writer) : List SeedSnap :=
  let base :=
    match w.toDownload with
    | .model | .implicit => w.snapsFromModel
    | .extra | .extraImplicit => w.extraSnaps
  base.drop (base.length - w.toDownloadConsideredNum)

/-- downloadedTrans is the switch at the end of Downloaded (translated from
the source, including its fallthrough structure): it decides whether another
round is needed, re-arming SnapsToDownload and advancing the to-download set
accordingly, or reports completion. -/
def Writer.downloadedTrans (w : Writer) : Except String (Bool × Writer) :=
  match w.toDownload with
  | .model => do
    let implicitNeeded ← w.policy.needsImplicitSnaps w.availableSnaps
    if implicitNeeded then
      .ok (false, { w with toDownload := .implicit, expectedStep := snapsToDownloadStep })
    else if w.extraSnapsGuessNum > 0 then
      .ok (false, { w with toDownload := .extra, expectedStep := snapsToDownloadStep })
    else .ok (true, w)
  | .implicit =>
    if w.extraSnapsGuessNum > 0 then
      .ok (false, { w with toDownload := .extra, expectedStep := snapsToDownloadStep })
    else .ok (true, w)
  | .extra => do
    let implicitNeeded ← w.policy.needsImplicitSnaps w.availableSnaps
    if implicitNeeded then
      .ok (false, { w with toDownload := .extraImplicit, expectedStep := snapsToDownloadStep })
    else .ok (true, w)
  | .extraImplicit => .ok (true, w)

/-- Downloaded checks the downloaded snaps metadata and reports whether the
seed snap set is complete or SnapsToDownload must be called again for the
next round (translated from the source). -/
def Writer.Downloaded (w : Writer) : Except String (Bool × Writer) := do
  let w ← w.checkStep downloadedStep
  let considered := w.consideredSnaps
  let w ← w.downloaded considered
  w.downloadedTrans

/-! ## SeedSnaps and WriteMeta -/

/-- seedSnapsOne is the per-snap body of SeedSnaps (translated from the
source): non-local snaps must already sit at the expected destination path,
local snaps are copied to the tree's local snap path which becomes their
final path. -/
def Writer.seedSnapsOne (w : Writer) (copySnap : String → String → String → Option String)
    (sn : SeedSnap) : Except String SeedSnap :=
  if ¬ sn.isLocal then
    let expectedPath := joinPath w.snapsDirPath (basename ((sn.info.map Info.mountFile).getD ""))
    if sn.path ≠ expectedPath then
      .error ("internal error: before seedwriter.Writer.SeedSnaps snap \"" ++ sn.snapName ++
        "\" Path should have been set to \"" ++ expectedPath ++ "\"")
    else if ¬ w.fileExists expectedPath then
      .error ("internal error: before seedwriter.Writer.SeedSnaps snap file \"" ++
        expectedPath ++ "\" should exist")
    else .ok sn
  else
    let dst := w.localSnapPathOf sn
    match copySnap ((sn.info.map Info.name).getD "") sn.path dst with
    | some e => .error e
    | none => .ok { sn with path := dst }

/-- SeedSnaps checks seed snaps and copies local snaps into the seed using
copySnap (translated from the source). -/
def Writer.SeedSnaps (w : Writer) (copySnap : String → String → String → Option String) :
    Except String Writer := do
  let w ← w.checkStep seedSnapsStep
  let snapsFromModel ← w.snapsFromModel.mapM (w.seedSnapsOne copySnap)
  let extraSnaps ← w.extraSnaps.mapM (w.seedSnapsOne copySnap)
  .ok { w with snapsFromModel := snapsFromModel, extraSnaps := extraSnaps }

/-- WriteMeta writes seed metadata and assertions into the seed.  Modelled
from the spec: the tree's writeAssertions and writeMeta are external
persistence treated as succeeding; what remains is the step-protocol
transition. -/
def Writer.WriteMeta (w : Writer) : Except String Writer :=
  w.checkStep writeMetaStep

/-! ## Concrete instances and runs used to settle the claims -/

/-- trivialPolicy is a policy instance with no system snap, no implicit
snaps and no extra restrictions; any policy value is admissible for the
universally quantified claims about the writer. -/
def trivialPolicy : Policy :=
  { checkDefaultChannel := fun _ => none
    checkSnapChannel := fun _ _ => none
    systemSnap := none
    modelSnapDefaultChannel := "stable"
    extraSnapDefaultChannel := "stable"
    checkBase := fun _ _ => none
    needsImplicitSnaps := fun _ => .ok false
    implicitSnaps := fun _ => []
    implicitExtraSnaps := fun _ => [] }

instance : Inhabited Policy := ⟨trivialPolicy⟩

instance : Inhabited Writer := ⟨{ model := {}, policy := trivialPolicy }⟩

def getOk {α : Type} [Inhabited α] : Except String α → α
  | .ok a => a
  | .error _ => default

/-- crossOpts supplies the same snap identity twice: once as a local path
(the file at `foo.snap` names itself `foo`) and once by name. -/
def crossOpts (c1 c2 : String) : List OptionsSnap :=
  [{ path := "foo.snap", channel := c1 }, { name := "foo", channel := c2 }]

def fooLocalInfo : Info := { name := "foo", mountFile := "foo_x1.snap" }

def fooStoreInfo : Info :=
  { name := "foo", snapID := "foosnapid", mountFile := "foo_1.snap" }

def crossW0 : Writer :=
  getOk (New {} trivialPolicy "" "" (fun _ => "") (fun _ => true) (fun _ => none))

/-- crossAfterInfoDerived runs registration, Start, LocalSnaps (with the
caller deriving the local snap's Info) and InfoDerived on the cross-matching
option list. -/
def crossAfterInfoDerived (c1 c2 : String) : Except String Writer := do
  let w ← crossW0.SetOptionsSnaps (crossOpts c1 c2)
  let w ← w.Start
  let (_, w) ← w.LocalSnaps
  let w := w.setLocalSnapInfo 0 fooLocalInfo
  w.InfoDerived

/-- crossRun drives the cross-matching option list through the full round
loop: the model round is empty, the extra round picks up both option entries,
and the caller fills in the store metadata of the non-local one. -/
def crossRun : Except String (Bool × Writer) := do
  let w ← crossAfterInfoDerived "" ""
  let (_, w) ← w.SnapsToDownload
  let (_, w) ← w.Downloaded
  let (_, w) ← w.SnapsToDownload
  let w := w.setExtraSnapInfo 1 fooStoreInfo (some [])
  w.Downloaded

/-! ## Claim C10: SetInfo frame -/

/-- C10: SetInfo always sets the Info field to the given info; for a local
snap no other field of the SeedSnap or of the Writer changes (in particular
Path is left unchanged), and for a non-local snap the only additional change
is that Path is set to the tree's snaps directory joined with the base name
of the info's mount file. -/
theorem SetInfo_sets_info_and_path_only (w : Writer) (sn : SeedSnap) (info : Info) :
    w.SetInfo sn info =
      ({ sn with info := some info,
                 path := if sn.isLocal then sn.path
                         else joinPath w.snapsDirPath (basename info.mountFile) }, w) := by
  by_cases h : sn.isLocal <;> simp [Writer.SetInfo, h]

/-! ## Claim C6: system snap prepended to the model round -/

/-- C6: if the policy defines a system snap and no model entry has the same
identity, the from-model resolution order is exactly the system snap followed
by the model's declared snaps in order; if the model's list already contains
that identity, the order is exactly the declared list with no prepend and no
duplicate; with no system snap it is also exactly the declared list. -/
theorem modSnaps_system_prepend (w : Writer) :
    (∀ s, w.policy.systemSnap = some s →
      ((∀ m ∈ w.model.snaps, m.name ≠ s.name) → w.modSnaps = s :: w.model.snaps) ∧
      ((∃ m ∈ w.model.snaps, m.name = s.name) → w.modSnaps = w.model.snaps)) ∧
    (w.policy.systemSnap = none → w.modSnaps = w.model.snaps) := by
  constructor
  · intro s hs
    constructor
    · intro h
      have hany : w.model.snaps.any (fun m => m.name = s.name) = false := by
        simp only [List.any_eq_false, decide_eq_true_eq]
        exact h
      simp [Writer.modSnaps, hs, hany]
    · intro h
      have hany : w.model.snaps.any (fun m => m.name = s.name) = true := by
        simp only [List.any_eq_true, decide_eq_true_eq]
        exact h
      simp [Writer.modSnaps, hs, hany]
  · intro h
    simp [Writer.modSnaps, h]

def c6SystemSnap : ModelSnap := { name := "core", snapType := "core" }

def c6Policy : Policy := { trivialPolicy with systemSnap := some c6SystemSnap }

def c6Model : Model :=
  { brandID := "brand", snaps := [{ name := "pc", snapType := "gadget" }] }

def c6ModelWith : Model :=
  { brandID := "brand",
    snaps := [{ name := "core", snapType := "core" }, { name := "pc", snapType := "gadget" }] }

def c6Writer : Writer := { model := c6Model, policy := c6Policy }

def c6WriterWith : Writer := { model := c6ModelWith, policy := c6Policy }

/-- C6 witness: with the system snap absent it is prepended; with it present
the list is unchanged. -/
theorem modSnaps_system_prepend_witness :
    c6Writer.modSnaps = c6SystemSnap :: c6Writer.model.snaps ∧
    c6WriterWith.modSnaps = c6WriterWith.model.snaps := by
  constructor
  · exact ((modSnaps_system_prepend c6Writer).1 c6SystemSnap rfl).1 (by decide)
  · exact ((modSnaps_system_prepend c6WriterWith).1 c6SystemSnap rfl).2
      ⟨{ name := "core", snapType := "core" }, by decide, rfl⟩

/-! ## Claim C7: channel resolution without a pinned track -/

/-- C7: for a model snap with no pinned track, when neither an option channel
nor a global default channel is supplied, resolution returns exactly the
model entry's default channel (or the policy's model-snap default channel
when the entry declares none); an effective option channel on the same track
as the default yields the override's risk on the default's track. -/
theorem resolveChannel_model_defaults (w : Writer) (which : String) (ms : ModelSnap)
    (opt : Option OptionsSnap) (hpin : ms.pinnedTrack = "") :
    (w.effectiveOptChannel opt = "" →
      w.resolveChannel which (some ms) opt =
        .ok (if ms.defaultChannel = "" then w.policy.modelSnapDefaultChannel
             else ms.defaultChannel)) ∧
    (∀ t r1 r2,
      parseVerbatim ms.defaultChannel = some { track := t, risk := r1 } →
      parseVerbatim (w.effectiveOptChannel opt) = some { track := t, risk := r2 } →
      r2 ≠ "" →
      w.resolveChannel which (some ms) opt = .ok (Chan.render { track := t, risk := r2 })) := by
  constructor
  · intro h
    simp [Writer.resolveChannel, hpin, h, resolveChan]
  · intro t r1 r2 h1 h2 hr2
    have hdneq : ms.defaultChannel ≠ "" := by
      intro he
      rw [he] at h1
      exact Option.noConfusion h1
    have hoeq : w.effectiveOptChannel opt ≠ "" := by
      intro he
      rw [he] at h2
      exact Option.noConfusion h2
    simp [Writer.resolveChannel, hpin, hdneq, resolveChan, hoeq, h1, h2, hr2,
      Option.bind, ite_self]

def c7ModelSnap : ModelSnap :=
  { name := "pc", snapType := "gadget", defaultChannel := "18/stable" }

def c7Model : Model := { brandID := "brand", snaps := [c7ModelSnap] }

def c7Writer : Writer := { model := c7Model, policy := trivialPolicy }

/-- C7 witness: with no option and no global default the model default
channel 18/stable is returned as is; an option channel 18/edge on the same
track yields the override's risk on that track. -/
theorem resolveChannel_model_defaults_witness :
    c7Writer.resolveChannel "pc" (some c7ModelSnap) none = .ok "18/stable" ∧
    c7Writer.resolveChannel "pc" (some c7ModelSnap)
      (some { name := "pc", channel := "18/edge" }) = .ok "18/edge" := by
  constructor
  · exact (resolveChannel_model_defaults c7Writer "pc" c7ModelSnap none rfl).1 (by rfl)
  · exact (resolveChannel_model_defaults c7Writer "pc" c7ModelSnap
      (some { name := "pc", channel := "18/edge" }) rfl).2 "18" "stable" "edge"
      (by rfl) (by rfl) (by decide)

/-! ## Claim C3: pinned-track mismatch -/

theorem modelLoop_ok_mem (w : Writer) (l : List ModelSnap) (r)
    (h : modelLoop w l = .ok r) : ∀ m ∈ l, ∃ sn, w.modelSnapToSeed m = .ok sn := by
  induction l generalizing r with
  | nil => intro m hm; cases hm
  | cons a rest ih =>
    intro m hm
    rcases hsn : w.modelSnapToSeed a with e | sn
    · rw [modelLoop, hsn] at h
      simp only [Bind.bind, Except.bind] at h
      exact Except.noConfusion h
    · rcases List.mem_cons.mp hm with hm | hm
      · exact ⟨sn, hm ▸ hsn⟩
      · rw [modelLoop, hsn] at h
        rcases hrest : modelLoop w rest with e2 | r2
        · rw [hrest] at h
          simp only [Bind.bind, Except.bind] at h
          exact Except.noConfusion h
        · exact ih r2 hrest m hm

/-- C3: for every model snap with a non-empty pinned track and every
effective option channel whose track is incompatible with the pinned track,
channel resolution fails with the pinned-track-mismatch error naming the
option channel and the pinned track; the failure propagates through
modelSnapToSeed and makes SnapsToDownload of that snap's round return an
error, so no download of that snap is requested. -/
theorem resolveChannel_pinned_track_mismatch (w : Writer) :
    (∀ which ms opt pc,
      ms.pinnedTrack ≠ "" →
      parseVerbatim (w.effectiveOptChannel opt) = some pc →
      pc.track ≠ "" → pc.track ≠ ms.pinnedTrack →
      w.resolveChannel which (some ms) opt =
        .error (pinnedTrackError (w.effectiveOptChannel opt) ms)) ∧
    (∀ ms e, w.resolveChannel ms.name (some ms) (w.modelOptSnapFor ms) = .error e →
      w.modelSnapToSeed ms = .error e) ∧
    (∀ ms e, ms ∈ w.modSnaps → w.modelSnapToSeed ms = .error e →
      w.expectedStep = snapsToDownloadStep → w.toDownload = .model →
      ∃ e2, w.SnapsToDownload = .error e2) := by
  refine ⟨?_, ?_, ?_⟩
  · intro which ms opt pc hpin hparse htr htr2
    have hne : w.effectiveOptChannel opt ≠ "" := by
      intro he
      rw [he] at hparse
      exact Option.noConfusion hparse
    have hres : resolvePinned ms.pinnedTrack (w.effectiveOptChannel opt) =
        .error .trackSwitch := by
      unfold resolvePinned
      rw [if_neg hne, hparse]
      simp [htr, htr2]
    simp only [Writer.resolveChannel]
    rw [if_pos hpin, hres]
  · intro ms e h
    simp only [Writer.modelSnapToSeed, h, Bind.bind, Except.bind]
  · intro ms e hmem herr hstep htd
    have hcs : w.checkStep snapsToDownloadStep =
        .ok { w with expectedStep := snapsToDownloadStep + 1 } := by
      unfold Writer.checkStep checkStepCore
      rw [hstep]
      simp
    have htd1 : ({ w with expectedStep := snapsToDownloadStep + 1 } : Writer).toDownload
        = .model := htd
    have hms : ({ w with expectedStep := snapsToDownloadStep + 1 } : Writer).modSnaps
        = w.modSnaps := rfl
    rcases hloop : modelLoop { w with expectedStep := snapsToDownloadStep + 1 } w.modSnaps
        with e2 | r
    · refine ⟨e2, ?_⟩
      simp only [Writer.SnapsToDownload, hcs, Bind.bind, Except.bind,
        Writer.modelSnapsToDownload, hms, hloop]
      rw [htd]
    · exfalso
      rcases modelLoop_ok_mem _ _ _ hloop ms hmem with ⟨sn, hok⟩
      have hsame : ({ w with expectedStep := snapsToDownloadStep + 1 } : Writer).modelSnapToSeed ms
          = w.modelSnapToSeed ms := rfl
      rw [hsame, herr] at hok
      exact Except.noConfusion hok

def c3ModelSnap : ModelSnap :=
  { name := "pc", snapType := "gadget", pinnedTrack := "18" }

def c3Opt : OptionsSnap := { name := "pc", channel := "2.0/stable" }

def c3Writer : Writer :=
  { model := { brandID := "brand", snaps := [c3ModelSnap] },
    policy := trivialPolicy,
    expectedStep := snapsToDownloadStep,
    optionsSnaps := [c3Opt],
    byNameOptSnaps := [("pc", 0)] }

/-- C3 witness: a model snap pinned to track 18 with option channel
2.0/stable fails resolution with the pinned-track error and makes the model
round's SnapsToDownload fail. -/
theorem resolveChannel_pinned_track_mismatch_witness :
    c3Writer.resolveChannel "pc" (some c3ModelSnap) (some c3Opt) =
      .error (pinnedTrackError "2.0/stable" c3ModelSnap) ∧
    ∃ e2, c3Writer.SnapsToDownload = .error e2 := by
  constructor
  · exact (resolveChannel_pinned_track_mismatch c3Writer).1 "pc" c3ModelSnap (some c3Opt)
      { track := "2.0", risk := "stable" } (by decide) rfl (by decide) (by decide)
  · exact (resolveChannel_pinned_track_mismatch c3Writer).2.2 c3ModelSnap
      (pinnedTrackError "2.0/stable" c3ModelSnap) (by simp [Writer.modSnaps, trivialPolicy, c3Writer])
      ((resolveChannel_pinned_track_mismatch c3Writer).2.1 c3ModelSnap _ rfl) rfl rfl

/-! ## Claim C5: publisher trust for kernel and gadget snaps -/

theorem findSome?_none_forall {α β : Type} (f : α → Option β) (l : List α)
    (h : l.findSome? f = none) : ∀ x ∈ l, f x = none := by
  induction l with
  | nil => intro x hx; cases hx
  | cons a rest ih =>
    intro x hx
    rw [List.findSome?] at h
    rcases hf : f a with _ | b
    · rw [hf] at h
      rcases List.mem_cons.mp hx with hx | hx
      · exact hx ▸ hf
      · exact ih h x hx
    · rw [hf] at h
      exact Option.noConfusion h

theorem or_eq_none_right {a b : Option String} (h : a.or b = none) : b = none := by
  rcases a with _ | x
  · simpa [Option.or] using h
  · simp [Option.or] at h

theorem checkStepCore_ok_val (exp : Nat) (le : Bool) (this : Nat) (r : Nat)
    (h : checkStepCore exp le this = .ok r) : r = this + 1 := by
  unfold checkStepCore at h
  split_ifs at h <;> exact (Except.ok.inj h).symm

theorem checkStep_ok_shape (w : Writer) (st : Nat) (w1 : Writer)
    (h : w.checkStep st = .ok w1) : w1 = { w with expectedStep := st + 1 } := by
  unfold Writer.checkStep at h
  rcases hc : checkStepCore w.expectedStep w.localSnaps.isEmpty st with e | r
  · rw [hc] at h
    exact Except.noConfusion h
  · rw [hc] at h
    have hr := checkStepCore_ok_val _ _ _ _ hc
    subst hr
    exact (Except.ok.inj h).symm

theorem downloadedErr_none_checks (w : Writer) (sns : List SeedSnap)
    (h : w.downloadedErr sns = none) :
    ∀ sn ∈ sns,
      w.checkDownloadedSnap (w.availableSnaps ++ sns.map SeedSnap.snapName) sn = none := by
  unfold Writer.downloadedErr at h
  rcases hf : sns.find? (fun sn => sn.info.isNone) with _ | sn
  · rw [hf] at h
    exact findSome?_none_forall _ _ h
  · rw [hf] at h
    exact Option.noConfusion h

theorem checkDownloadedSnap_none_publisher (w : Writer) (avail : List String)
    (sn : SeedSnap) (info : Info) (hinfo : sn.info = some info)
    (h : w.checkDownloadedSnap avail sn = none) :
    w.checkPublisher sn info = none := by
  unfold Writer.checkDownloadedSnap at h
  rw [hinfo] at h
  exact or_eq_none_right (or_eq_none_right (or_eq_none_right (or_eq_none_right
    (or_eq_none_right (or_eq_none_right h)))))

theorem checkPublisher_none_trusted (w : Writer) (sn : SeedSnap) (info : Info)
    (decl : SnapDecl)
    (hskip : ¬ (sn.isLocal ∧ sn.aRefs = none))
    (htype : info.snapType = .kernel ∨ info.snapType = .gadget)
    (hdecl : w.snapDecl sn = .ok decl)
    (h : w.checkPublisher sn info = none) :
    decl.publisherID = w.model.brandID ∨ decl.publisherID = "canonical" := by
  unfold Writer.checkPublisher at h
  rw [if_neg hskip] at h
  rcases htype with ht | ht <;> rw [ht] at h <;>
    simp only [hdecl] at h <;>
    · by_cases h1 : decl.publisherID = w.model.brandID
      · exact Or.inl h1
      · by_cases h2 : decl.publisherID = "canonical"
        · exact Or.inr h2
        · rw [if_pos ⟨h1, h2⟩] at h
          exact Option.noConfusion h

/-- C5: for every snap in a downloaded batch of type kernel or gadget that is
not a local snap supplied without assertion references, a snap-declaration
publisher that is neither the model's brand id nor \"canonical\" makes
checkPublisher produce the publisher-mismatch error; and whenever Downloaded
succeeds (the round advances), every such snap's resolved publisher is the
brand id or \"canonical\" — so a mismatch makes Downloaded fail and the round
does not advance. -/
theorem downloaded_publisher_check (w : Writer) :
    (∀ sn info kind decl,
      ¬ (sn.isLocal ∧ sn.aRefs = none) →
      ((info.snapType = .kernel ∧ kind = "kernel") ∨
        (info.snapType = .gadget ∧ kind = "gadget")) →
      w.snapDecl sn = .ok decl →
      decl.publisherID ≠ w.model.brandID → decl.publisherID ≠ "canonical" →
      w.checkPublisher sn info =
        some (publisherMismatch kind info.name decl.publisherID w.model.brandID)) ∧
    (∀ p, w.Downloaded = .ok p → ∀ sn ∈ w.consideredSnaps, ∀ info decl,
      sn.info = some info →
      ¬ (sn.isLocal ∧ sn.aRefs = none) →
      (info.snapType = .kernel ∨ info.snapType = .gadget) →
      w.snapDecl sn = .ok decl →
      (decl.publisherID = w.model.brandID ∨ decl.publisherID = "canonical")) := by
  constructor
  · intro sn info kind decl hskip htype hdecl h1 h2
    unfold Writer.checkPublisher
    rw [if_neg hskip]
    rcases htype with ⟨ht, hk⟩ | ⟨ht, hk⟩ <;> rw [ht, hk] <;>
      simp only [hdecl] <;> rw [if_pos ⟨h1, h2⟩]
  · intro p hok sn hsn info decl hinfo hskip htype hdecl
    rcases hcs : w.checkStep downloadedStep with e | w1
    · rw [Writer.Downloaded, hcs] at hok
      simp only [Bind.bind, Except.bind] at hok
      exact Except.noConfusion hok
    · have hw1 := checkStep_ok_shape _ _ _ hcs
      subst hw1
      rw [Writer.Downloaded, hcs] at hok
      simp only [Bind.bind, Except.bind] at hok
      rcases hd : Writer.downloaded { w with expectedStep := downloadedStep + 1 }
          (Writer.consideredSnaps { w with expectedStep := downloadedStep + 1 }) with e | w2
      · rw [hd] at hok
        exact Except.noConfusion hok
      · have herr : Writer.downloadedErr { w with expectedStep := downloadedStep + 1 }
            (Writer.consideredSnaps { w with expectedStep := downloadedStep + 1 }) = none := by
          unfold Writer.downloaded at hd
          rcases he : Writer.downloadedErr { w with expectedStep := downloadedStep + 1 }
              (Writer.consideredSnaps { w with expectedStep := downloadedStep + 1 }) with _ | e2
          · rfl
          · rw [he] at hd
            exact Except.noConfusion hd
        have hcons : Writer.consideredSnaps { w with expectedStep := downloadedStep + 1 }
            = w.consideredSnaps := rfl
        have hchk := downloadedErr_none_checks _ _ herr sn (by rw [hcons]; exact hsn)
        have hpub : Writer.checkPublisher { w with expectedStep := downloadedStep + 1 } sn info
            = none :=
          checkDownloadedSnap_none_publisher _ _ _ _ hinfo hchk
        exact checkPublisher_none_trusted { w with expectedStep := downloadedStep + 1 }
          sn info decl hskip htype hdecl hpub

def c5Decl : SnapDecl := { publisherID := "evil" }

def c5Writer : Writer :=
  { model := { brandID := "brand", snaps := [] },
    policy := trivialPolicy,
    db := fun k => if k = "declkey" then some c5Decl else none }

def c5Snap : SeedSnap :=
  { ref := some ("krnl", "krnlid"),
    info := some { name := "krnl", snapID := "krnlid", snapType := .kernel },
    aRefs := some [{ isSnapDeclaration := true, key := "declkey" }] }

/-- C5 witness: a kernel snap published by a third party for a model branded
differently is rejected with the publisher-mismatch error. -/
theorem downloaded_publisher_check_witness :
    c5Writer.checkPublisher c5Snap { name := "krnl", snapID := "krnlid", snapType := .kernel } =
      some (publisherMismatch "kernel" "krnl" "evil" "brand") := by
  exact (downloaded_publisher_check c5Writer).1 c5Snap
    { name := "krnl", snapID := "krnlid", snapType := .kernel } "kernel" c5Decl
    (by decide) (Or.inl ⟨rfl, rfl⟩) rfl (by decide) (by decide)

/-! ## Claim C8: eager validation of option snaps -/

/-- optEntryOK spells out the registration-time conditions for one option
entry, relative to the names already registered by earlier name-form
entries: name and path mutually exclusive, no parallel-instance or invalid
or repeated name, a path ending in .snap naming an existing file, and a
channel that parses and passes the policy. -/
def optEntryOK (pol : Policy) (fileExists : String → Bool) (priorNames : List String)
    (sn : OptionsSnap) : Bool :=
  (if sn.name ≠ "" then
    (sn.path == "") && (instanceKey sn.name == "") && validSnapName sn.name &&
      !(priorNames.any (fun q => q = sn.name))
   else
    strEndsWith sn.path ".snap" && fileExists sn.path) &&
  ((sn.channel == "") ||
    (match parseVerbatim sn.channel with
     | none => false
     | some ch => (pol.checkSnapChannel ch (optWhich sn)).isNone))

/-- goodOpts extends optEntryOK along a list, accumulating the names of the
name-form entries. -/
def goodOpts (pol : Policy) (fileExists : String → Bool) :
    List String → List OptionsSnap → Bool
  | _, [] => true
  | prior, sn :: rest =>
    optEntryOK pol fileExists prior sn &&
      goodOpts pol fileExists (if sn.name ≠ "" then prior ++ [sn.name] else prior) rest

theorem setOptionsOne_ok_iff (pol : Policy) (fe : String → Bool)
    (byName : List (String × Nat)) (i : Nat) (sn : OptionsSnap) :
    (∃ b, setOptionsOne pol fe byName i sn = .ok b) ↔
      optEntryOK pol fe (byName.map Prod.fst) sn = true := by
  by_cases h1 : sn.name = ""
  · by_cases h2 : strEndsWith sn.path ".snap" = true
    · by_cases h3 : fe sn.path = true
      · by_cases h4 : sn.channel = ""
        · simp [setOptionsOne, optEntryOK, h1, h2, h3, h4]
        · rcases hp : parseVerbatim sn.channel with _ | ch
          · simp [setOptionsOne, optEntryOK, h1, h2, h3, h4, hp]
          · rcases hc : pol.checkSnapChannel ch (optWhich sn) with _ | e
            · simp [setOptionsOne, optEntryOK, h1, h2, h3, h4, hp, hc]
            · simp [setOptionsOne, optEntryOK, h1, h2, h3, h4, hp, hc]
      · simp [setOptionsOne, optEntryOK, h1, h2, h3]
    · simp [setOptionsOne, optEntryOK, h1, h2]
  · by_cases h2 : sn.path = ""
    · by_cases h3 : instanceKey sn.name = ""
      · by_cases h4 : validSnapName sn.name = true
        · by_cases h5 : byName.any (fun p => p.1 = sn.name) = true
          · simp only [setOptionsOne, optEntryOK, h1, h2, h3, h4, h5]
            simp [h1, h2, h3, h4]
            intro hall
            rcases List.any_eq_true.mp h5 with ⟨p, hp, he⟩
            exact absurd (of_decide_eq_true he) (hall p.1 p.2 hp)
          · have hall : ∀ x : String, ∀ x1 : Nat, (x, x1) ∈ byName → ¬ x = sn.name := by
              intro x x1 hx he
              exact h5 (List.any_eq_true.2 ⟨(x, x1), hx, decide_eq_true he⟩)
            by_cases h6 : sn.channel = ""
            · simp [setOptionsOne, optEntryOK, h1, h2, h3, h4, h5, h6, List.any_map,
                Function.comp]
              exact hall
            · rcases hp : parseVerbatim sn.channel with _ | ch
              · simp [setOptionsOne, optEntryOK, h1, h2, h3, h4, h5, h6, hp,
                  List.any_map, Function.comp]
              · rcases hc : pol.checkSnapChannel ch (optWhich sn) with _ | e
                · simp [setOptionsOne, optEntryOK, h1, h2, h3, h4, h5, h6, hp, hc,
                    List.any_map, Function.comp]
                  exact hall
                · simp [setOptionsOne, optEntryOK, h1, h2, h3, h4, h5, h6, hp, hc,
                    List.any_map, Function.comp]
        · simp [setOptionsOne, optEntryOK, h1, h2, h3, h4]
      · simp [setOptionsOne, optEntryOK, h1, h2, h3]
    · simp [setOptionsOne, optEntryOK, h1, h2]


theorem setOptionsOne_ok_shape (pol : Policy) (fe : String → Bool)
    (byName : List (String × Nat)) (i : Nat) (sn : OptionsSnap) (b : List (String × Nat))
    (h : setOptionsOne pol fe byName i sn = .ok b) :
    b = if sn.name ≠ "" then byName ++ [(sn.name, i)] else byName := by
  by_cases h1 : sn.name = ""
  · by_cases h2 : strEndsWith sn.path ".snap" = true
    · by_cases h3 : fe sn.path = true
      · by_cases h4 : sn.channel = ""
        · simp [setOptionsOne, h1, h2, h3, h4] at h
          simp [h1, h.symm]
        · rcases hp : parseVerbatim sn.channel with _ | ch
          · simp [setOptionsOne, h1, h2, h3, h4, hp] at h
          · rcases hc : pol.checkSnapChannel ch (optWhich sn) with _ | e
            · simp [setOptionsOne, h1, h2, h3, h4, hp, hc] at h
              simp [h1, h.symm]
            · simp [setOptionsOne, h1, h2, h3, h4, hp, hc] at h
      · simp [setOptionsOne, h1, h2, h3] at h
    · simp [setOptionsOne, h1, h2] at h
  · by_cases h2 : sn.path = ""
    · by_cases h3 : instanceKey sn.name = ""
      · by_cases h4 : validSnapName sn.name = true
        · by_cases h5 : byName.any (fun p => p.1 = sn.name) = true
          · simp [setOptionsOne, h1, h2, h3, h4, h5] at h
          · by_cases h6 : sn.channel = ""
            · simp [setOptionsOne, h1, h2, h3, h4, h5, h6] at h
              simp [h1, h.symm]
            · rcases hp : parseVerbatim sn.channel with _ | ch
              · simp [setOptionsOne, h1, h2, h3, h4, h5, h6, hp] at h
              · rcases hc : pol.checkSnapChannel ch (optWhich sn) with _ | e
                · simp [setOptionsOne, h1, h2, h3, h4, h5, h6, hp, hc] at h
                  simp [h1, h.symm]
                · simp [setOptionsOne, h1, h2, h3, h4, h5, h6, hp, hc] at h
        · simp [setOptionsOne, h1, h2, h3, h4] at h
      · simp [setOptionsOne, h1, h2, h3] at h
    · simp [setOptionsOne, h1, h2] at h

theorem setOptionsLoop_ok_iff (pol : Policy) (fe : String → Bool) :
    ∀ (l : List (Nat × OptionsSnap)) (byName : List (String × Nat))
      (locals : List (Nat × SeedSnap)),
    (∃ r, setOptionsLoop pol fe l byName locals = .ok r) ↔
      goodOpts pol fe (byName.map Prod.fst) (l.map Prod.snd) = true := by
  intro l
  induction l with
  | nil =>
    intro byName locals
    simp [setOptionsLoop, goodOpts]
  | cons p rest ih =>
    rcases p with ⟨i, sn⟩
    intro byName locals
    rw [setOptionsLoop]
    rcases hone : setOptionsOne pol fe byName i sn with e | b
    · constructor
      · rintro ⟨r, hr⟩
        exact Except.noConfusion hr
      · intro hg
        exfalso
        simp only [List.map_cons, goodOpts] at hg
        have hok := (Bool.and_eq_true _ _).mp hg |>.1
        rcases (setOptionsOne_ok_iff pol fe byName i sn).mpr hok with ⟨b, hb⟩
        rw [hone] at hb
        exact Except.noConfusion hb
    · have hok : optEntryOK pol fe (byName.map Prod.fst) sn = true :=
        (setOptionsOne_ok_iff pol fe byName i sn).mp ⟨b, hone⟩
      have hshape := setOptionsOne_ok_shape pol fe byName i sn b hone
      have hnames : b.map Prod.fst =
          if sn.name ≠ "" then byName.map Prod.fst ++ [sn.name]
          else byName.map Prod.fst := by
        rw [hshape]
        by_cases hn : sn.name = "" <;> simp [hn]
      simp only [List.map_cons, goodOpts]
      constructor
      · rintro ⟨r, hr⟩
        have hre := (ih b _).mp ⟨r, hr⟩
        rw [hnames] at hre
        simp only [hok, Bool.true_and]
        by_cases hn : sn.name = "" <;> simp [hn] at hre ⊢ <;> exact hre
      · intro hg
        have hrest := (Bool.and_eq_true _ _).mp hg |>.2
        refine (ih b _).mpr ?_
        rw [hnames]
        by_cases hn : sn.name = "" <;> simp [hn] at hrest ⊢ <;> exact hrest

/-- C8: called in its protocol position with no names yet registered,
SetOptionsSnaps succeeds exactly when every entry passes the
registration-time conditions — name and path mutually exclusive, plain valid
names not repeating an already-registered name, paths ending in .snap and
naming existing files, and non-empty channels that parse and pass the policy
— so registration fails immediately, before Start is reachable, when any
entry violates one of them. -/
theorem SetOptionsSnaps_validates_eagerly (w : Writer) (optSnaps : List OptionsSnap)
    (hstep : w.expectedStep = setOptionsSnapsStep) :
    (∃ w2, w.SetOptionsSnaps optSnaps = .ok w2) ↔
      goodOpts w.policy w.fileExists (w.byNameOptSnaps.map Prod.fst) optSnaps = true := by
  have hcs : w.checkStep setOptionsSnapsStep =
      .ok { w with expectedStep := setOptionsSnapsStep + 1 } := by
    unfold Writer.checkStep checkStepCore
    rw [hstep]
    simp
  have henum : optSnaps.enum.map Prod.snd = optSnaps := List.enum_map_snd optSnaps
  simp only [Writer.SetOptionsSnaps, hcs, Bind.bind, Except.bind]
  rcases hl : setOptionsLoop w.policy w.fileExists optSnaps.enum w.byNameOptSnaps
      w.localSnaps with e | r
  · constructor
    · rintro ⟨w2, hw2⟩
      exact Except.noConfusion hw2
    · intro hg
      exfalso
      rw [← henum] at hg
      rcases (setOptionsLoop_ok_iff w.policy w.fileExists optSnaps.enum
        w.byNameOptSnaps w.localSnaps).mpr hg with ⟨r, hr⟩
      rw [hl] at hr
      exact Except.noConfusion hr
  · constructor
    · intro _
      have hg := (setOptionsLoop_ok_iff w.policy w.fileExists optSnaps.enum
        w.byNameOptSnaps w.localSnaps).mp ⟨r, hl⟩
      rw [henum] at hg
      exact hg
    · intro hg
      exact ⟨_, rfl⟩

/-- C8 witness: a valid single-name option list registers successfully, and
an entry carrying both name and path is rejected. -/
theorem SetOptionsSnaps_validates_eagerly_witness :
    (∃ w2, crossW0.SetOptionsSnaps [{ name := "htop" }] = .ok w2) ∧
    ¬ (∃ w2, crossW0.SetOptionsSnaps [{ name := "htop", path := "htop.snap" }] = .ok w2) := by
  constructor
  · exact (SetOptionsSnaps_validates_eagerly crossW0 [{ name := "htop" }] rfl).mpr (by decide)
  · intro h
    have := (SetOptionsSnaps_validates_eagerly crossW0
      [{ name := "htop", path := "htop.snap" }] rfl).mp h
    simp [goodOpts, optEntryOK] at this

/-! ## Claim C1: the step protocol -/

deriving instance DecidableEq for Except

theorem modelSnapsToDownload_expectedStep (w : Writer) (ms : List ModelSnap)
    (p : List SeedSnap × Writer) (h : w.modelSnapsToDownload ms = .ok p) :
    p.2.expectedStep = w.expectedStep := by
  unfold Writer.modelSnapsToDownload at h
  rcases hl : modelLoop w ms with e | r
  · rw [hl] at h
    simp only [Bind.bind, Except.bind] at h
    exact Except.noConfusion h
  · rcases r with ⟨dl, seeds, c⟩
    rw [hl] at h
    simp only [Bind.bind, Except.bind] at h
    rw [← Except.ok.inj h]

theorem extraSnapsToDownload_expectedStep (w : Writer) (l : List (Option Nat × OptionsSnap))
    (p : List SeedSnap × Writer) (h : w.extraSnapsToDownload l = .ok p) :
    p.2.expectedStep = w.expectedStep := by
  unfold Writer.extraSnapsToDownload at h
  rcases hl : extraLoop w l with e | r
  · rw [hl] at h
    simp only [Bind.bind, Except.bind] at h
    exact Except.noConfusion h
  · rcases r with ⟨dl, seeds⟩
    rw [hl] at h
    simp only [Bind.bind, Except.bind] at h
    rw [← Except.ok.inj h]

/-- C1: checkStep accepts a step exactly when it is the expected one, with
exactly two permitted skips — Start while SetOptionsSnaps is expected, and
SnapsToDownload while LocalSnaps or InfoDerived is expected provided no local
option snaps were registered — and otherwise produces the protocol-violation
error naming the expected method(s); every step method returns that error
when its checkStep fails; and calling SnapsToDownload again right after a
successful SnapsToDownload always returns a protocol-violation error, never a
silent no-op. -/
theorem step_protocol_enforced :
    (∀ exp ∈ List.range 8, ∀ this ∈ List.range 8, ∀ le : Bool,
      (checkStepCore exp le this = .ok (this + 1) ↔
        (this = exp ∨ (this = startStep ∧ exp = setOptionsSnapsStep) ∨
          (this = snapsToDownloadStep ∧ (exp = localSnapsStep ∨ exp = infoDerivedStep) ∧
            le = true))) ∧
      (checkStepCore exp le this = .ok (this + 1) ∨
        checkStepCore exp le this =
          .error (protocolViolation (expectedDesc exp le) (stepName this)))) ∧
    (∀ (w : Writer) (optSnaps : List OptionsSnap) (e : String),
      w.checkStep setOptionsSnapsStep = .error e →
      w.SetOptionsSnaps optSnaps = .error e) ∧
    (∀ (w : Writer) (e : String), w.checkStep startStep = .error e → w.Start = .error e) ∧
    (∀ (w : Writer) (e : String), w.checkStep localSnapsStep = .error e →
      w.LocalSnaps = .error e) ∧
    (∀ (w : Writer) (e : String), w.checkStep infoDerivedStep = .error e →
      w.InfoDerived = .error e) ∧
    (∀ (w : Writer) (e : String), w.checkStep snapsToDownloadStep = .error e →
      w.SnapsToDownload = .error e) ∧
    (∀ (w : Writer) (e : String), w.checkStep downloadedStep = .error e →
      w.Downloaded = .error e) ∧
    (∀ (w : Writer) (cp : String → String → String → Option String) (e : String),
      w.checkStep seedSnapsStep = .error e → w.SeedSnaps cp = .error e) ∧
    (∀ (w : Writer) (e : String), w.checkStep writeMetaStep = .error e →
      w.WriteMeta = .error e) ∧
    (∀ (w : Writer) (p : List SeedSnap × Writer), w.SnapsToDownload = .ok p →
      ∃ e, p.2.SnapsToDownload = .error e) := by
  refine ⟨by decide, ?_, ?_, ?_, ?_, ?_, ?_, ?_, ?_, ?_⟩
  · intro w optSnaps e h
    simp only [Writer.SetOptionsSnaps, h, Bind.bind, Except.bind]
  · intro w e h
    exact h
  · intro w e h
    simp only [Writer.LocalSnaps, h, Bind.bind, Except.bind]
  · intro w e h
    simp only [Writer.InfoDerived, h, Bind.bind, Except.bind]
  · intro w e h
    simp only [Writer.SnapsToDownload, h, Bind.bind, Except.bind]
  · intro w e h
    simp only [Writer.Downloaded, h, Bind.bind, Except.bind]
  · intro w cp e h
    simp only [Writer.SeedSnaps, h, Bind.bind, Except.bind]
  · intro w e h
    exact h
  · intro w p hok
    rcases hcs : w.checkStep snapsToDownloadStep with e | w1
    · rw [Writer.SnapsToDownload, hcs] at hok
      simp only [Bind.bind, Except.bind] at hok
      exact Except.noConfusion hok
    · have hw1 := checkStep_ok_shape _ _ _ hcs
      have hstep2 : p.2.expectedStep = downloadedStep := by
        rw [Writer.SnapsToDownload, hcs] at hok
        simp only [Bind.bind, Except.bind] at hok
        subst hw1
        rcases htd : ({ w with expectedStep := snapsToDownloadStep + 1 } : Writer).toDownload
            with _ | _ | _ | _ <;> rw [htd] at hok
        · exact modelSnapsToDownload_expectedStep _ _ _ hok
        · exact modelSnapsToDownload_expectedStep _ _ _ hok
        · exact extraSnapsToDownload_expectedStep _ _ _ hok
        · exact extraSnapsToDownload_expectedStep _ _ _ hok
      have hfail : p.2.checkStep snapsToDownloadStep =
          .error (protocolViolation "Downloaded" "SnapsToDownload") := by
        unfold Writer.checkStep checkStepCore
        rw [hstep2]
        cases hls : p.2.localSnaps.isEmpty <;> rfl
      refine ⟨protocolViolation "Downloaded" "SnapsToDownload", ?_⟩
      simp only [Writer.SnapsToDownload, hfail, Bind.bind, Except.bind]

def c1BadWriter : Writer :=
  { model := {}, policy := trivialPolicy, expectedStep := downloadedStep }

def c1Writer : Writer := getOk (crossAfterInfoDerived "" "")

def c1Pair : List SeedSnap × Writer := getOk c1Writer.SnapsToDownload

/-- C1 witness: a writer expecting Downloaded rejects SetOptionsSnaps with the
protocol-violation error naming Downloaded, and after a successful
SnapsToDownload a second SnapsToDownload without an intervening Downloaded is
rejected. -/
theorem step_protocol_enforced_witness :
    c1BadWriter.SetOptionsSnaps [] =
      .error (protocolViolation "Downloaded" "SetOptionsSnaps") ∧
    ∃ e, c1Pair.2.SnapsToDownload = .error e := by
  constructor
  · exact step_protocol_enforced.2.1 c1BadWriter []
      (protocolViolation "Downloaded" "SetOptionsSnaps") rfl
  · exact step_protocol_enforced.2.2.2.2.2.2.2.2.2 c1Writer c1Pair rfl

/-! ## Claim C2: the four resolution rounds -/

theorem downloaded_ok_shape (w : Writer) (sns : List SeedSnap) (w3 : Writer)
    (h : w.downloaded sns = .ok w3) :
    w3 = { w with availableSnaps := w.availableSnaps ++ sns.map SeedSnap.snapName } := by
  unfold Writer.downloaded at h
  rcases he : w.downloadedErr sns with _ | e
  · rw [he] at h
    exact (Except.ok.inj h).symm
  · rw [he] at h
    exact Except.noConfusion h

theorem downloadedTrans_cases (w3 : Writer) (c : Bool) (w2 : Writer)
    (h : w3.downloadedTrans = .ok (c, w2)) :
    (c = false → w3.toDownload.idx < w2.toDownload.idx ∧ w2.toDownload.idx ≤ 3 ∧
      w2.expectedStep = snapsToDownloadStep) ∧
    (w3.toDownload = .extraImplicit → c = true) ∧
    (w3.toDownload = .model →
      (w3.policy.needsImplicitSnaps w2.availableSnaps = .ok true →
        c = false ∧ w2.toDownload = .implicit) ∧
      (w3.policy.needsImplicitSnaps w2.availableSnaps = .ok false →
        (w3.extraSnapsGuessNum > 0 → c = false ∧ w2.toDownload = .extra) ∧
        (¬ w3.extraSnapsGuessNum > 0 → c = true))) ∧
    (w3.toDownload = .implicit →
      (w3.extraSnapsGuessNum > 0 → c = false ∧ w2.toDownload = .extra) ∧
      (¬ w3.extraSnapsGuessNum > 0 → c = true)) ∧
    (w3.toDownload = .extra →
      (w3.policy.needsImplicitSnaps w2.availableSnaps = .ok true →
        c = false ∧ w2.toDownload = .extraImplicit) ∧
      (w3.policy.needsImplicitSnaps w2.availableSnaps = .ok false → c = true)) := by
  rcases htd : w3.toDownload with _ | _ | _ | _ <;>
    simp only [Writer.downloadedTrans, htd, Bind.bind, Except.bind] at h
  case model =>
    rcases hni : w3.policy.needsImplicitSnaps w3.availableSnaps with e | b <;>
      rw [hni] at h
    · exact Except.noConfusion h
    · rcases b with _ | _
      · simp only [Bool.false_eq_true, if_false] at h
        by_cases hx : w3.extraSnapsGuessNum > 0
        · rw [if_pos hx] at h
          have hp := Except.ok.inj h
          injection hp with hc hw2
          subst hc
          subst hw2
          refine ⟨?_, ?_, ?_, ?_, ?_⟩ <;> intro hh <;>
            simp_all [ToDownloadSet.idx]
        · rw [if_neg hx] at h
          have hp := Except.ok.inj h
          injection hp with hc hw2
          subst hc
          subst hw2
          refine ⟨?_, ?_, ?_, ?_, ?_⟩ <;> intro hh <;>
            simp_all [ToDownloadSet.idx]
      · simp only [if_true] at h
        have hp := Except.ok.inj h
        injection hp with hc hw2
        subst hc
        subst hw2
        refine ⟨?_, ?_, ?_, ?_, ?_⟩ <;> intro hh <;>
          simp_all [ToDownloadSet.idx]
  case implicit =>
    by_cases hx : w3.extraSnapsGuessNum > 0
    · rw [if_pos hx] at h
      have hp := Except.ok.inj h
      injection hp with hc hw2
      subst hc
      subst hw2
      refine ⟨?_, ?_, ?_, ?_, ?_⟩ <;> intro hh <;>
        simp_all [ToDownloadSet.idx]
    · rw [if_neg hx] at h
      have hp := Except.ok.inj h
      injection hp with hc hw2
      subst hc
      subst hw2
      refine ⟨?_, ?_, ?_, ?_, ?_⟩ <;> intro hh <;>
        simp_all [ToDownloadSet.idx]
  case extra =>
    rcases hni : w3.policy.needsImplicitSnaps w3.availableSnaps with e | b <;>
      rw [hni] at h
    · exact Except.noConfusion h
    · rcases b with _ | _
      · simp only [Bool.false_eq_true, if_false] at h
        have hp := Except.ok.inj h
        injection hp with hc hw2
        subst hc
        subst hw2
        refine ⟨?_, ?_, ?_, ?_, ?_⟩ <;> intro hh <;>
          simp_all [ToDownloadSet.idx]
      · simp only [if_true] at h
        have hp := Except.ok.inj h
        injection hp with hc hw2
        subst hc
        subst hw2
        refine ⟨?_, ?_, ?_, ?_, ?_⟩ <;> intro hh <;>
          simp_all [ToDownloadSet.idx]
  case extraImplicit =>
    have hp := Except.ok.inj h
    injection hp with hc hw2
    subst hc
    subst hw2
    refine ⟨?_, ?_, ?_, ?_, ?_⟩ <;> intro hh <;>
      simp_all [ToDownloadSet.idx]

/-- C2: Downloaded drives the rounds in the fixed order model, implicit,
extra, extra-implicit: whenever it succeeds with complete = false the
to-download set strictly advances in that order and SnapsToDownload is
re-armed; the next round is entered exactly when its trigger holds — the
policy reports implicit snaps are needed after the model or extra round,
unconsumed option entries remain after the model or implicit round — and
after the extra-implicit round Downloaded returns complete = true
unconditionally, so the loop terminates after at most four rounds. -/
theorem downloaded_round_order (w : Writer) :
    ∀ (c : Bool) (w2 : Writer), w.Downloaded = .ok (c, w2) →
      (c = false → w.toDownload.idx < w2.toDownload.idx ∧ w2.toDownload.idx ≤ 3 ∧
        w2.expectedStep = snapsToDownloadStep) ∧
      (w.toDownload = .extraImplicit → c = true) ∧
      (w.toDownload = .model →
        (w.policy.needsImplicitSnaps w2.availableSnaps = .ok true →
          c = false ∧ w2.toDownload = .implicit) ∧
        (w.policy.needsImplicitSnaps w2.availableSnaps = .ok false →
          (w.extraSnapsGuessNum > 0 → c = false ∧ w2.toDownload = .extra) ∧
          (¬ w.extraSnapsGuessNum > 0 → c = true))) ∧
      (w.toDownload = .implicit →
        (w.extraSnapsGuessNum > 0 → c = false ∧ w2.toDownload = .extra) ∧
        (¬ w.extraSnapsGuessNum > 0 → c = true)) ∧
      (w.toDownload = .extra →
        (w.policy.needsImplicitSnaps w2.availableSnaps = .ok true →
          c = false ∧ w2.toDownload = .extraImplicit) ∧
        (w.policy.needsImplicitSnaps w2.availableSnaps = .ok false → c = true)) := by
  intro c w2 hok
  rcases hcs : w.checkStep downloadedStep with e | w1
  · rw [Writer.Downloaded, hcs] at hok
    simp only [Bind.bind, Except.bind] at hok
    exact Except.noConfusion hok
  · have hw1 := checkStep_ok_shape _ _ _ hcs
    rw [Writer.Downloaded, hcs] at hok
    simp only [Bind.bind, Except.bind] at hok
    rcases hd : w1.downloaded w1.consideredSnaps with e | w3
    · rw [hd] at hok
      exact Except.noConfusion hok
    · rw [hd] at hok
      have hw3 := downloaded_ok_shape _ _ _ hd
      have htd3 : w3.toDownload = w.toDownload := by rw [hw3, hw1]
      have hpol : w3.policy = w.policy := by rw [hw3, hw1]
      have hex3 : w3.extraSnapsGuessNum = w.extraSnapsGuessNum := by rw [hw3, hw1]
      have TL := downloadedTrans_cases w3 c w2 hok
      rw [htd3, hpol, hex3] at TL
      exact TL

def c2W5 : Writer := getOk (do
  let w ← crossAfterInfoDerived "" ""
  let (_, w) ← w.SnapsToDownload
  pure w)

def c2Res : Bool × Writer := getOk c2W5.Downloaded

/-- C2 witness: after the model round of the cross-matching scenario, the
policy needs no implicit snaps but an unconsumed option entry remains, so
Downloaded reports complete = false and re-arms SnapsToDownload for the
extra round. -/
theorem downloaded_round_order_witness :
    c2Res.1 = false ∧ c2Res.2.toDownload = .extra ∧
      c2Res.2.expectedStep = snapsToDownloadStep := by
  have h : c2W5.Downloaded = .ok (c2Res.1, c2Res.2) := rfl
  have TL := downloaded_round_order c2W5 c2Res.1 c2Res.2 h
  obtain ⟨hc, htd⟩ := ((TL.2.2.1 rfl).2 rfl).1 (by decide)
  exact ⟨hc, htd, (TL.1 hc).2.2⟩

/-! ## Claim C4: name uniqueness of the final lists fails on cross-matched options -/

/-- C4: evaluating the writer on the failing input — a local path option
whose derived info names it foo together with a name option foo, against a
model with no snaps — the full round loop completes with complete = true,
yet the union of the from-model and extra lists holds two seed snaps named
foo: the extra round re-adds both option entries, so the finalized outputs
are not name-unique. -/
theorem crossRun_duplicate_names :
    crossRun.map (fun p => (p.1, p.2.snapsFromModel.map SeedSnap.snapName,
      p.2.extraSnaps.map SeedSnap.snapName)) = .ok (true, [], ["foo", "foo"]) ∧
    ¬ (([] : List String) ++ ["foo", "foo"]).Nodup := by
  exact ⟨rfl, by decide⟩

/-! ## Claim C9: a name option and a path option for the same identity -/

/-- C9 counterexample: an option list supplying the identity foo both as a
local path and by name is accepted, not rejected: SetOptionsSnaps and
InfoDerived both succeed, the name entry being merely counted as consumed. -/
theorem cross_options_accepted :
    (crossAfterInfoDerived "" "").map
      (fun w => (w.optionsSnaps, w.consumedOptSnapNum)) =
      .ok (crossOpts "" "", 1) := by
  rfl

/-- C9 amended: when a local path option entry cross-matches a name option
entry for the same identity at InfoDerived, the writer accepts the pair and
consumes the name entry: processing the local snap fails only when the two
entries specify different non-empty channels; otherwise it succeeds, counts
the name entry consumed, and when only the name entry has a channel that
channel is merged into the path entry. -/
theorem infoDerived_cross_match_merge (w : Writer) (i : Nat) (sn : SeedSnap)
    (info : Info) (j : Nat) (named : OptionsSnap) (own : String)
    (hinfo : sn.info = some info)
    (hnew : ¬ w.byRefLocalSnaps.any (fun p => p.1 = info.name) = true)
    (hj : lookupByName w.byNameOptSnaps info.name = some j)
    (hnamed : w.optionsSnaps[j]? = some named)
    (hown : (sn.optionSnap.map OptionsSnap.channel).getD "" = own) :
    (named.channel ≠ "" → own ≠ "" → own ≠ named.channel →
      ∀ w2, infoDerivedStepOne w i sn ≠ .ok w2) ∧
    (¬ (named.channel ≠ "" ∧ own ≠ "" ∧ own ≠ named.channel) →
      ∃ w2, infoDerivedStepOne w i sn = .ok w2 ∧
        w2.consumedOptSnapNum = w.consumedOptSnapNum + 1 ∧
        w2.optionsSnaps =
          (if named.channel ≠ "" ∧ own = "" then
            w.optionsSnaps.mapIdx
              (fun k o => if k = i then { o with channel := named.channel } else o)
           else w.optionsSnaps)) := by
  constructor
  · intro hc1 hc2 hc3 w2 hok
    unfold infoDerivedStepOne at hok
    simp only [hinfo] at hok
    obtain ⟨info2, hi2, hi2n⟩ :
        ∃ info2 : Info, (if (info.revision = 0) then { info with revision := -1 }
          else info) = info2 ∧ info2.name = info.name := by
      by_cases h : info.revision = 0
      · exact ⟨{ info with revision := -1 }, by rw [if_pos h], rfl⟩
      · exact ⟨info, by rw [if_neg h], rfl⟩
    rw [hi2] at hok
    simp only [SeedSnap.snapName, Option.map_some', Option.getD_some, hi2n] at hok
    rw [if_neg hnew] at hok
    rw [hj] at hok
    simp only [hnamed, Option.getD_some, hown] at hok
    rw [if_pos ⟨hc1, hc2, hc3⟩] at hok
    exact Except.noConfusion hok
  · intro hnc
    unfold infoDerivedStepOne
    simp only [hinfo]
    obtain ⟨info2, hi2, hi2n⟩ :
        ∃ info2 : Info, (if (info.revision = 0) then { info with revision := -1 }
          else info) = info2 ∧ info2.name = info.name := by
      by_cases h : info.revision = 0
      · exact ⟨{ info with revision := -1 }, by rw [if_pos h], rfl⟩
      · exact ⟨info, by rw [if_neg h], rfl⟩
    rw [hi2]
    simp only [SeedSnap.snapName, Option.map_some', Option.getD_some, hi2n]
    rw [if_neg hnew]
    rw [hj]
    simp only [hnamed, Option.getD_some, hown]
    rw [if_neg hnc]
    by_cases hm : named.channel ≠ "" ∧ own = ""
    · rw [if_pos hm, if_pos hm]
      exact ⟨_, rfl, rfl, rfl⟩
    · rw [if_neg hm, if_neg hm]
      exact ⟨_, rfl, rfl, rfl⟩

def c9Writer : Writer := getOk (do
  let w ← crossW0.SetOptionsSnaps (crossOpts "" "edge")
  let w ← w.Start
  let (_, w) ← w.LocalSnaps
  pure (w.setLocalSnapInfo 0 fooLocalInfo))

def c9Snap : SeedSnap := (lookupLocal c9Writer.localSnaps 0).getD {}

/-- C9 witness: in the cross-matching scenario with channel edge given only
on the name entry, InfoDerived's processing of the local snap succeeds,
counts the name entry consumed and merges the channel into the path entry. -/
theorem infoDerived_cross_match_merge_witness :
    ∃ w2, infoDerivedStepOne c9Writer 0 c9Snap = .ok w2 ∧
      w2.consumedOptSnapNum = c9Writer.consumedOptSnapNum + 1 ∧
      w2.optionsSnaps =
        (if ("edge" : String) ≠ "" ∧ ("" : String) = "" then
          c9Writer.optionsSnaps.mapIdx
            (fun k o => if k = 0 then { o with channel := "edge" } else o)
         else c9Writer.optionsSnaps) := by
  exact (infoDerived_cross_match_merge c9Writer 0 c9Snap fooLocalInfo 1
    { name := "foo", channel := "edge" } "" rfl (by decide) rfl rfl rfl).2 (by decide)

end Seedwriter

